import Mathlib

/-!
Shallow embedding of the session monitoring and notification pipeline of the
claude-feishu-controller bridge (`src/index-discord.js` together with the
slash-command registration module `src/discord-commands.js`).

Pure branching code — the state-change handler `handleStateChange`, the
inbound message handler `handleDiscordMessage`, the ordered `shutdown`
procedure, and the fatal-startup path of `main` — is translated into Lean
functions that return the observable effects of one call as explicit action
lists, in the order the code performs them.  The event-driven monitoring loop
(`startMonitorPolling` / `scheduleNextPoll`) is translated into a labelled
transition system over a small state record, with one transition per
event-loop callback; the process event model follows Node.js child_process
semantics, under which a spawn failure emits an `error` event and is still
followed by a `close` event.  The one collaborator module whose behaviour
decides a claim but whose source is not part of this development — the
message deduplicator — is modelled from its specified contract and marked as
such in its doc comments.
-/

/-- Semantic states produced by the state detector (the `type` field of a
`ClassificationResult`); the detector's `none`/unchanged outcome is
represented as `Option.none` at use sites. -/
inductive StateType where
  | idle_input
  | input_prompt
  | completed
  | error
  | plan_mode
  | testing
  | git_operation
  | warning
deriving DecidableEq

/-- Result of one classification pass (`detector.detect`). -/
structure ClassificationResult where
  type : StateType
  content : String
  timestamp : Nat
deriving DecidableEq

/-- `handleStateChange` (index-discord.js, lines 143-179), as the list of
texts it passes to `messenger.sendText`, in order.  The `clean` parameter
stands for `sessionManager.buffer.cleanForNotification(content, 30)`, whose
implementation lives in the session-manager module.  The switch sends for
`input_prompt` and `completed`, and deliberately falls through with no send
for `error`, `plan_mode`, `testing`, `git_operation`, `warning` and
`idle_input`. -/
def handleStateChange (clean : String → String) (r : ClassificationResult) : List String :=
  match r.type with
  | StateType.error => []
  | StateType.plan_mode => []
  | StateType.testing => []
  | StateType.git_operation => []
  | StateType.warning => []
  | StateType.idle_input => []
  | StateType.input_prompt =>
      ["🔔 Claude Code 正在等待输入\n\n当前提示：" ++ clean r.content]
  | StateType.completed =>
      ["✅ **Claude Code 任务已完成**\n\n正在等待新的输入..."]

/-- One entry of the idempotency cache: a key and the time it was first
marked. -/
structure DedupEntry where
  key : String
  firstSeen : Nat
deriving DecidableEq

/-- Modelled from the spec: the `MessageDeduplicator` module
(`./utils/deduplicator.js`) is imported by the entry point but its source is
not part of this development.  Spec section 4.1 describes a TTL-expiring,
size-bounded key store.  `entries` is kept in insertion order, so with
monotone insertion times the head is the oldest entry. -/
structure Dedup where
  ttl : Nat
  maxSize : Nat
  entries : List DedupEntry
deriving DecidableEq

/-- Modelled from the spec: `isProcessed(key)` reports whether the key is
present in the cache; entries disappear through cleanup passes and size
eviction, and a present key is never reprocessed. -/
def isProcessed (d : Dedup) (key : String) : Bool :=
  d.entries.any fun e => e.key == key

/-- Modelled from the spec: `markProcessed(key)` is a no-op for a present key
(the TTL is measured from first insertion), and at capacity the oldest entry
(the head, given monotone insertion times) is evicted first. -/
def markProcessed (d : Dedup) (now : Nat) (key : String) : Dedup :=
  if isProcessed d key then d
  else
    { d with entries :=
        (if d.maxSize ≤ d.entries.length then d.entries.drop 1 else d.entries)
          ++ [⟨key, now⟩] }

/-- Modelled from the spec: the periodic background cleanup removes the
entries whose age exceeds `ttl` at the time `now` of the pass. -/
def cleanupPass (d : Dedup) (now : Nat) : Dedup :=
  { d with entries := d.entries.filter fun e => decide (now ≤ e.firstSeen + d.ttl) }

/-- The fields of an inbound discord.js message object that
`handleDiscordMessage` reads. -/
structure Message where
  authorBot : Bool
  channelId : String
  content : String
  id : String
deriving DecidableEq

/-- Observable actions of one `handleDiscordMessage` call, in order. -/
inductive MsgAction where
  | checkDup (key : String)
  | mark (key : String)
  | routeText (text : String)
  | logRouteFailure
deriving DecidableEq

/-- `handleDiscordMessage` (index-discord.js, lines 185-224): returns the
updated deduplicator state and the actions performed.  Bot messages, messages
from other channels and empty or whitespace-only content (the code's
`content.trim().length === 0`, stated here as all characters being
whitespace) return before the deduplicator is touched.  Otherwise the event id `discord_` ++ message id is
checked (`isProcessed`), duplicates are dropped, and fresh events are marked
processed before `router.route` is awaited; a routing rejection is caught by
the surrounding try/catch, which only logs — the mark is not rolled back. -/
def handleDiscordMessage (cfgChannelId : String) (now : Nat) (d : Dedup)
    (m : Message) (routeOk : Bool) : Dedup × List MsgAction :=
  if m.authorBot then (d, [])
  else if m.channelId ≠ cfgChannelId then (d, [])
  else if m.content.toList.all Char.isWhitespace then (d, [])
  else
    let eventId := "discord_" ++ m.id
    if isProcessed d eventId then (d, [MsgAction.checkDup eventId])
    else
      (markProcessed d now eventId,
        [MsgAction.checkDup eventId, MsgAction.mark eventId,
         MsgAction.routeText m.content]
          ++ cond routeOk [] [MsgAction.logRouteFailure])

/-- Bool test for route invocations among a call's actions. -/
def MsgAction.isRoute : MsgAction → Bool
  | MsgAction.routeText _ => true
  | _ => false

/-- Number of `router.route` invocations recorded in an action list. -/
def countRoutes (l : List MsgAction) : Nat :=
  (l.filter MsgAction.isRoute).length

/-- In the list `l`, every occurrence of `a` comes strictly before every
occurrence of `b`. -/
def occursBefore {α : Type} (l : List α) (a b : α) : Prop :=
  ∀ i j : Fin l.length, l.get i = a → l.get j = b → (i : Nat) < (j : Nat)

instance {α : Type} [DecidableEq α] (l : List α) (a b : α) :
    Decidable (occursBefore l a b) := by
  unfold occursBefore
  infer_instance

/-- Observable actions of the sampling process's `close` handler
(index-discord.js, lines 102-126), in execution order. -/
inductive TickAction where
  | bufferUpdate (text : String)
  | detectStart (text : String)
  | scheduleNext (delayMs : Nat)
  | invokeStateHandler (r : ClassificationResult)
  | setRouterState
  | logDetectFailure
deriving DecidableEq

/-- The `close` handler of one sampling process, as the ordered list of its
observable actions.  With non-empty accumulated output it first feeds the
text into the session buffer (`sessionManager.buffer.update`) and then starts
classification (`detector.detect`); the next poll is scheduled synchronously
when Discord is still connected; the classification continuation then runs:
a non-null result invokes `handleStateChange` once and updates the router's
monitor state, a null result only updates the router state, and a rejected
classification only logs. -/
def onCloseActions (connected : Bool) (newBuffer : String)
    (outcome : Except String (Option ClassificationResult))
    (nextInterval : Nat) : List TickAction :=
  (if newBuffer = "" then []
   else [TickAction.bufferUpdate newBuffer, TickAction.detectStart newBuffer])
    ++ (if connected then [TickAction.scheduleNext nextInterval] else [])
    ++ (if newBuffer = "" then []
        else
          match outcome with
          | Except.ok (some r) => [TickAction.invokeStateHandler r, TickAction.setRouterState]
          | Except.ok none => [TickAction.setRouterState]
          | Except.error _ => [TickAction.logDetectFailure])

/-- Bool test for state-change handler invocations among a tick's actions. -/
def TickAction.isInvoke : TickAction → Bool
  | TickAction.invokeStateHandler _ => true
  | _ => false

/-- Number of `handleStateChange` invocations recorded in a tick's action
list. -/
def countInvokes (l : List TickAction) : Nat :=
  (l.filter TickAction.isInvoke).length

/-- Phase of an open (not yet closed) sampling process: still running, or
already failed with an `error` event and awaiting its `close` event. -/
inductive ProcPhase where
  | running
  | erroredOpen
deriving DecidableEq

/-- State of the monitoring loop of index-discord.js: whether the
`ClientReady` handler has fired, the `isDiscordConnected` flag, the delays of
the pending `setTimeout(scheduleNextPoll, …)` timers, and the open sampling
processes. -/
structure Sys where
  readyFired : Bool
  connected : Bool
  pending : List Nat
  procs : List ProcPhase
deriving DecidableEq

/-- The initial program state: `isDiscordConnected = false`, no timer, no
process (index-discord.js, lines 36-40). -/
def initSys : Sys :=
  { readyFired := false, connected := false, pending := [], procs := [] }

/-- One event-loop callback of the monitoring pipeline.  `cfg` is
`config.monitor.pollInterval` and `hasSession` is whether
`sessionManager.getCurrentSession()` is non-empty at ready time.

* `clientReady` — the once-only `ClientReady` handler (lines 552-575): sets
  `isDiscordConnected = true` and, when a session exists, calls
  `startMonitorPolling`, which schedules the first tick with delay `cfg`
  (line 136).  Nothing in the file ever resets the flag to `false`.
* `tickSkip` — a pending timer fires while Discord is disconnected:
  `scheduleNextPoll` returns at its guard (lines 76-79), spawning nothing and
  scheduling nothing.
* `tickSpawn` — a pending timer fires while connected: the tick spawns one
  `tmux capture-pane` sampling process (lines 84-94).
* `procError` — an open process emits `error`: the handler logs and schedules
  a next tick unconditionally (lines 128-132); by Node child_process
  semantics the process stays open until its `close` event.
* `procClose` — an open process (running, or errored and awaiting close)
  emits `close`: the handler schedules a next tick exactly when
  `isDiscordConnected` (lines 121-125).  Its buffer/classification actions
  are modelled by `onCloseActions`.

The scheduling delays chosen by `detector.getPollInterval()` are arbitrary
(`d` binders). -/
inductive Step (cfg : Nat) (hasSession : Bool) : Sys → Sys → Prop where
  | clientReady (s : Sys) (h : s.readyFired = false) :
      Step cfg hasSession s
        { s with readyFired := true, connected := true,
                 pending := s.pending ++ cond hasSession [cfg] [] }
  | tickSkip (s : Sys) (l r : List Nat) (d : Nat)
      (hp : s.pending = l ++ d :: r) (hc : s.connected = false) :
      Step cfg hasSession s { s with pending := l ++ r }
  | tickSpawn (s : Sys) (l r : List Nat) (d : Nat)
      (hp : s.pending = l ++ d :: r) (hc : s.connected = true) :
      Step cfg hasSession s
        { s with pending := l ++ r, procs := s.procs ++ [ProcPhase.running] }
  | procError (s : Sys) (l r : List ProcPhase) (d : Nat)
      (h : s.procs = l ++ ProcPhase.running :: r) :
      Step cfg hasSession s
        { s with procs := l ++ ProcPhase.erroredOpen :: r,
                 pending := s.pending ++ [d] }
  | procClose (s : Sys) (l r : List ProcPhase) (ph : ProcPhase) (d : Nat)
      (h : s.procs = l ++ ph :: r) :
      Step cfg hasSession s
        { s with procs := l ++ r,
                 pending := s.pending ++ cond s.connected [d] [] }

/-- A state of the monitoring pipeline reachable from program start. -/
def Reachable (cfg : Nat) (hasSession : Bool) (s : Sys) : Prop :=
  Relation.ReflTransGen (Step cfg hasSession) initSys s

/-- The steps of the `shutdown` procedure (index-discord.js, lines 414-459),
in source order. -/
inductive ShutdownAction where
  | cancelTimer
  | stopProcesses
  | destroyDedup
  | destroyHistory
  | stopTranscript
  | closeClient
  | exitZero
deriving DecidableEq

/-- Which of the module-level handles are non-null when `shutdown` runs; each
of its steps is guarded by the corresponding truthiness check. -/
structure Handles where
  monitorTimeout : Bool
  processManager : Bool
  deduplicator : Bool
  messageHistory : Bool
  transcriptMonitor : Bool
  discordClient : Bool
deriving DecidableEq

/-- `shutdown` (index-discord.js, lines 414-459) as the ordered list of the
steps it performs: clear the pending poll timer, await
`processManager.stop()`, destroy the two idempotency caches (inbound dedup,
then sent-message history), stop the transcript monitor, destroy the Discord
client, and finally `process.exit(0)`. -/
def shutdownActions (h : Handles) : List ShutdownAction :=
  (cond h.monitorTimeout [ShutdownAction.cancelTimer] [])
    ++ (cond h.processManager [ShutdownAction.stopProcesses] [])
    ++ (cond h.deduplicator [ShutdownAction.destroyDedup] [])
    ++ (cond h.messageHistory [ShutdownAction.destroyHistory] [])
    ++ (cond h.transcriptMonitor [ShutdownAction.stopTranscript] [])
    ++ (cond h.discordClient [ShutdownAction.closeClient] [])
    ++ [ShutdownAction.exitZero]

/-- The observable actions of `main` (index-discord.js, lines 464-624).  The
constructors after `exitProc` are the teardown operations that a shutdown of
already-started components would perform; they are in the vocabulary so that
their absence from a trace is expressible. -/
inductive MainAction where
  | validateCfg
  | pmStart
  | initSessionManager
  | initDedup
  | initHistory
  | initClient
  | initMessenger
  | initTranscript
  | initCommander
  | initDetector
  | initRouter
  | printInfo
  | autoSelect
  | registerHandlers
  | loginCall
  | logStartupFailure
  | exitProc (code : Nat)
  | pmStop
  | dedupDestroy
  | historyDestroy
  | transcriptStop
  | clientDestroy
deriving DecidableEq

/-- The awaited or throwing startup operations at which `main`'s try block
can fail: configuration validation, `sessionManager.autoSelectSession()`, and
`discordClient.login(...)`. -/
inductive StartupFailure where
  | validateFail
  | autoSelectFail
  | loginFail
deriving DecidableEq

/-- The startup steps of `main`'s try block, in source order. -/
def startupSteps : List MainAction :=
  [MainAction.validateCfg, MainAction.pmStart, MainAction.initSessionManager,
   MainAction.initDedup, MainAction.initHistory, MainAction.initClient,
   MainAction.initMessenger, MainAction.initTranscript, MainAction.initCommander,
   MainAction.initDetector, MainAction.initRouter, MainAction.printInfo,
   MainAction.autoSelect, MainAction.registerHandlers, MainAction.loginCall]

/-- The startup steps that complete before a given failing operation
throws. -/
def stepsBeforeFailure : StartupFailure → List MainAction
  | StartupFailure.validateFail => []
  | StartupFailure.autoSelectFail =>
      [MainAction.validateCfg, MainAction.pmStart, MainAction.initSessionManager,
       MainAction.initDedup, MainAction.initHistory, MainAction.initClient,
       MainAction.initMessenger, MainAction.initTranscript, MainAction.initCommander,
       MainAction.initDetector, MainAction.initRouter, MainAction.printInfo]
  | StartupFailure.loginFail =>
      [MainAction.validateCfg, MainAction.pmStart, MainAction.initSessionManager,
       MainAction.initDedup, MainAction.initHistory, MainAction.initClient,
       MainAction.initMessenger, MainAction.initTranscript, MainAction.initCommander,
       MainAction.initDetector, MainAction.initRouter, MainAction.printInfo,
       MainAction.autoSelect, MainAction.registerHandlers]

/-- `main`'s observable trace: on a fatal startup failure the catch block
(lines 619-623) logs the error and calls `process.exit(1)` directly — it
performs none of the teardown operations; on success the full try block
runs. -/
def mainTrace : Option StartupFailure → List MainAction
  | some f => stepsBeforeFailure f ++ [MainAction.logStartupFailure, MainAction.exitProc 1]
  | none => startupSteps

/-- Claim C1 (counterexample): the claim says an `error` classification
results in a chat notification, but `handleStateChange` on an `error`
classification performs no send at all. -/
theorem error_state_no_notification :
    handleStateChange (fun s => s)
      { type := StateType.error, content := "Error: build failed", timestamp := 0 } = [] :=
  rfl

/-- Claim C1 (amended): the state-change handler sends exactly one chat
notification for the `input_prompt` (awaiting input) and `completed`
classifications, and none for any other classification type — in particular
none for `error`. -/
theorem notifications_only_for_prompt_and_completed
    (clean : String → String) (r : ClassificationResult) :
    (handleStateChange clean r).length =
      (if r.type = StateType.input_prompt ∨ r.type = StateType.completed then 1 else 0) := by
  rcases r with ⟨t, c, ts⟩
  cases t <;> simp [handleStateChange]

/-- Claim C7: whichever handles are non-null, `shutdown` performs each
present step exactly once, cancels the pending poll timer before stopping the
tracked processes, stops the processes before destroying the two idempotency
caches, and destroys the Discord client only after all of those. -/
theorem shutdown_performs_steps_in_order (h : Handles) :
    ((shutdownActions h).count ShutdownAction.cancelTimer = cond h.monitorTimeout 1 0) ∧
    ((shutdownActions h).count ShutdownAction.stopProcesses = cond h.processManager 1 0) ∧
    ((shutdownActions h).count ShutdownAction.destroyDedup = cond h.deduplicator 1 0) ∧
    ((shutdownActions h).count ShutdownAction.destroyHistory = cond h.messageHistory 1 0) ∧
    ((shutdownActions h).count ShutdownAction.closeClient = cond h.discordClient 1 0) ∧
    occursBefore (shutdownActions h) ShutdownAction.cancelTimer ShutdownAction.stopProcesses ∧
    occursBefore (shutdownActions h) ShutdownAction.cancelTimer ShutdownAction.destroyDedup ∧
    occursBefore (shutdownActions h) ShutdownAction.cancelTimer ShutdownAction.destroyHistory ∧
    occursBefore (shutdownActions h) ShutdownAction.cancelTimer ShutdownAction.closeClient ∧
    occursBefore (shutdownActions h) ShutdownAction.stopProcesses ShutdownAction.destroyDedup ∧
    occursBefore (shutdownActions h) ShutdownAction.stopProcesses ShutdownAction.destroyHistory ∧
    occursBefore (shutdownActions h) ShutdownAction.stopProcesses ShutdownAction.closeClient ∧
    occursBefore (shutdownActions h) ShutdownAction.destroyDedup ShutdownAction.closeClient ∧
    occursBefore (shutdownActions h) ShutdownAction.destroyHistory ShutdownAction.closeClient := by
  rcases h with ⟨a, b, c, d, e, f⟩
  cases a <;> cases b <;> cases c <;> cases d <;> cases e <;> cases f <;> decide

/-- Claim C8 (counterexample): when `discordClient.login` rejects — the
claim's own example of a fatal startup failure — the process manager has been
started and the deduplicator created, the process exits with code 1, yet no
teardown of those already-started components is attempted. -/
theorem startup_failure_skips_orderly_shutdown :
    MainAction.pmStart ∈ mainTrace (some StartupFailure.loginFail) ∧
    MainAction.initDedup ∈ mainTrace (some StartupFailure.loginFail) ∧
    MainAction.exitProc 1 ∈ mainTrace (some StartupFailure.loginFail) ∧
    MainAction.pmStop ∉ mainTrace (some StartupFailure.loginFail) ∧
    MainAction.dedupDestroy ∉ mainTrace (some StartupFailure.loginFail) ∧
    MainAction.clientDestroy ∉ mainTrace (some StartupFailure.loginFail) := by
  decide

/-- Claim C8 (amended): whatever startup operation fails fatally, `main`'s
catch block logs the failure and exits with the non-zero code 1 as its last
action, attempting no teardown of the components that were already
started. -/
theorem startup_failure_logs_and_exits_one (f : StartupFailure) :
    (mainTrace (some f)).getLast? = some (MainAction.exitProc 1) ∧
    MainAction.logStartupFailure ∈ mainTrace (some f) ∧
    MainAction.pmStop ∉ mainTrace (some f) ∧
    MainAction.dedupDestroy ∉ mainTrace (some f) ∧
    MainAction.historyDestroy ∉ mainTrace (some f) ∧
    MainAction.transcriptStop ∉ mainTrace (some f) ∧
    MainAction.clientDestroy ∉ mainTrace (some f) := by
  cases f <;> decide

/-- A key just marked is reported as processed. -/
theorem isProcessed_markProcessed_self (d : Dedup) (now : Nat) (k : String) :
    isProcessed (markProcessed d now k) k = true := by
  unfold markProcessed
  by_cases h : isProcessed d k = true
  · simp [h]
  · simp only [h, if_false, Bool.false_eq_true, if_neg]
    simp [isProcessed, List.any_append]

/-- A freshly marked key survives any cleanup pass run within the TTL of its
insertion time. -/
theorem isProcessed_after_cleanup (d : Dedup) (t1 t2 : Nat) (k : String)
    (hfresh : isProcessed d k = false) (httl : t2 ≤ t1 + d.ttl) :
    isProcessed (cleanupPass (markProcessed d t1 k) t2) k = true := by
  unfold markProcessed
  simp only [hfresh, Bool.false_eq_true, if_false]
  unfold cleanupPass isProcessed
  simp [List.filter_append, List.any_append, httl]

/-- Claim C9: a bot message, a message from another channel, or a message
with empty/whitespace-only content is dropped with no effect: the
deduplicator state is unchanged and no action at all — no dedup lookup, no
mark, no routing — is performed. -/
theorem filtered_message_has_no_effect
    (cfgChannelId : String) (now : Nat) (d : Dedup) (m : Message) (routeOk : Bool)
    (h : m.authorBot = true ∨ m.channelId ≠ cfgChannelId ∨ m.content.toList.all Char.isWhitespace = true) :
    handleDiscordMessage cfgChannelId now d m routeOk = (d, []) := by
  unfold handleDiscordMessage
  rcases h with h | h | h
  · simp [h]
  · by_cases hb : m.authorBot = true <;> simp [hb, h]
  · by_cases hb : m.authorBot = true
    · simp [hb]
    · by_cases hc : m.channelId = cfgChannelId
      · simp [hb, hc, h]
        intro x hx hw
        exact absurd (List.all_eq_true.mp h x hx) (by simp [hw])
      · simp [hb, hc]

/-- Claim C9 (witness): a concrete bot message leaves a concrete deduplicator
untouched and performs nothing. -/
theorem filtered_message_has_no_effect_witness :
    (Message.mk true ("chan-1") ("hello") ("7")).authorBot = true ∧
    handleDiscordMessage ("chan-1") 0 (Dedup.mk 60000 1000 [])
        (Message.mk true ("chan-1") ("hello") ("7")) true
      = (Dedup.mk 60000 1000 [], []) :=
  ⟨rfl, filtered_message_has_no_effect ("chan-1") 0 (Dedup.mk 60000 1000 [])
    (Message.mk true ("chan-1") ("hello") ("7")) true (Or.inl rfl)⟩

/-- Claim C4: an inbound message that passes the bot/channel/content filters
and is fresh is routed exactly once; a second delivery of the same message
id, even after an intervening cleanup pass run within the cache TTL, is
detected via `isProcessed` on the derived event id and dropped without
routing. -/
theorem duplicate_event_routed_once
    (cfgChannelId : String) (d : Dedup) (m : Message) (t1 t2 : Nat) (ok1 ok2 : Bool)
    (hbot : m.authorBot = false)
    (hch : m.channelId = cfgChannelId)
    (hne : m.content.toList.all Char.isWhitespace = false)
    (hfresh : isProcessed d ("discord_" ++ m.id) = false)
    (httl : t2 ≤ t1 + d.ttl) :
    countRoutes (handleDiscordMessage cfgChannelId t1 d m ok1).2 = 1 ∧
    (handleDiscordMessage cfgChannelId t2
        (cleanupPass (handleDiscordMessage cfgChannelId t1 d m ok1).1 t2) m ok2).2
      = [MsgAction.checkDup ("discord_" ++ m.id)] ∧
    countRoutes (handleDiscordMessage cfgChannelId t2
        (cleanupPass (handleDiscordMessage cfgChannelId t1 d m ok1).1 t2) m ok2).2 = 0 := by
  have h1 : handleDiscordMessage cfgChannelId t1 d m ok1
      = (markProcessed d t1 ("discord_" ++ m.id),
         [MsgAction.checkDup ("discord_" ++ m.id), MsgAction.mark ("discord_" ++ m.id),
          MsgAction.routeText m.content] ++ cond ok1 [] [MsgAction.logRouteFailure]) := by
    unfold handleDiscordMessage
    simp [hbot, hch, hne, hfresh]
    simpa using hne
  have hdup : isProcessed (cleanupPass (markProcessed d t1 ("discord_" ++ m.id)) t2)
      ("discord_" ++ m.id) = true :=
    isProcessed_after_cleanup d t1 t2 ("discord_" ++ m.id) hfresh httl
  have h2 : (handleDiscordMessage cfgChannelId t2
      (cleanupPass (markProcessed d t1 ("discord_" ++ m.id)) t2) m ok2)
      = (cleanupPass (markProcessed d t1 ("discord_" ++ m.id)) t2,
         [MsgAction.checkDup ("discord_" ++ m.id)]) := by
    unfold handleDiscordMessage
    simp [hbot, hch, hne, hdup]
    simpa using hne
  rw [h1]
  refine ⟨?_, ?_, ?_⟩
  · cases ok1 <;> simp [countRoutes, MsgAction.isRoute]
  · simp only []
    rw [h2]
  · simp only []
    rw [h2]
    simp [countRoutes, MsgAction.isRoute]

/-- Claim C4 (witness): a concrete fresh message is routed exactly once, and
its concrete redelivery after a cleanup pass within the TTL is dropped. -/
theorem duplicate_event_routed_once_witness :
    countRoutes (handleDiscordMessage ("chan-1") 1000 (Dedup.mk 60000 1000 [])
        (Message.mk false ("chan-1") ("hi") ("42")) true).2 = 1 ∧
    (handleDiscordMessage ("chan-1") 2000
        (cleanupPass (handleDiscordMessage ("chan-1") 1000 (Dedup.mk 60000 1000 [])
            (Message.mk false ("chan-1") ("hi") ("42")) true).1 2000)
        (Message.mk false ("chan-1") ("hi") ("42")) true).2
      = [MsgAction.checkDup ("discord_" ++ "42")] ∧
    countRoutes (handleDiscordMessage ("chan-1") 2000
        (cleanupPass (handleDiscordMessage ("chan-1") 1000 (Dedup.mk 60000 1000 [])
            (Message.mk false ("chan-1") ("hi") ("42")) true).1 2000)
        (Message.mk false ("chan-1") ("hi") ("42")) true).2 = 0 :=
  duplicate_event_routed_once ("chan-1") (Dedup.mk 60000 1000 [])
    (Message.mk false ("chan-1") ("hi") ("42")) 1000 2000 true true
    rfl rfl (by decide) rfl (by decide)

/-- Claim C10: for a message that passes the filters and is not a duplicate,
the event id is marked in the deduplicator before `router.route` is invoked,
the resulting deduplicator state is identical whether routing later succeeds
or fails (a routing rejection is only logged, the mark is not rolled back),
the event id is processed afterwards, and a redelivery of the same message id
to the resulting state is dropped without routing. -/
theorem mark_before_route_persists_on_failure
    (cfgChannelId : String) (now now2 : Nat) (d : Dedup) (m : Message) (ok ok2 : Bool)
    (hbot : m.authorBot = false)
    (hch : m.channelId = cfgChannelId)
    (hne : m.content.toList.all Char.isWhitespace = false)
    (hfresh : isProcessed d ("discord_" ++ m.id) = false) :
    (handleDiscordMessage cfgChannelId now d m ok).2
      = [MsgAction.checkDup ("discord_" ++ m.id), MsgAction.mark ("discord_" ++ m.id),
         MsgAction.routeText m.content] ++ cond ok [] [MsgAction.logRouteFailure] ∧
    occursBefore (handleDiscordMessage cfgChannelId now d m ok).2
      (MsgAction.mark ("discord_" ++ m.id)) (MsgAction.routeText m.content) ∧
    (handleDiscordMessage cfgChannelId now d m false).1
      = (handleDiscordMessage cfgChannelId now d m true).1 ∧
    isProcessed (handleDiscordMessage cfgChannelId now d m ok).1 ("discord_" ++ m.id) = true ∧
    countRoutes (handleDiscordMessage cfgChannelId now2
        (handleDiscordMessage cfgChannelId now d m ok).1 m ok2).2 = 0 := by
  have h1 : ∀ okx : Bool, handleDiscordMessage cfgChannelId now d m okx
      = (markProcessed d now ("discord_" ++ m.id),
         [MsgAction.checkDup ("discord_" ++ m.id), MsgAction.mark ("discord_" ++ m.id),
          MsgAction.routeText m.content] ++ cond okx [] [MsgAction.logRouteFailure]) := by
    intro okx
    unfold handleDiscordMessage
    simp [hbot, hch, hne, hfresh]
    simpa using hne
  have hmarked : isProcessed (markProcessed d now ("discord_" ++ m.id))
      ("discord_" ++ m.id) = true :=
    isProcessed_markProcessed_self d now ("discord_" ++ m.id)
  have h2 : (handleDiscordMessage cfgChannelId now2
      (markProcessed d now ("discord_" ++ m.id)) m ok2)
      = (markProcessed d now ("discord_" ++ m.id),
         [MsgAction.checkDup ("discord_" ++ m.id)]) := by
    unfold handleDiscordMessage
    simp [hbot, hch, hne, hmarked]
    simpa using hne
  refine ⟨?_, ?_, ?_, ?_, ?_⟩
  · rw [h1]
  · rw [h1]
    unfold occursBefore
    cases ok <;>
      (intro i j hi hj
       rcases i with ⟨iv, hiv⟩
       rcases j with ⟨jv, hjv⟩
       simp at hiv hjv
       interval_cases iv <;> interval_cases jv <;> simp_all [List.get])
  · rw [h1, h1]
  · rw [h1]
    exact hmarked
  · rw [h1]
    simp only []
    rw [h2]
    simp [countRoutes, MsgAction.isRoute]

/-- Claim C10 (witness): a concrete fresh message whose routing fails is
still marked, the mark is the same as on the success path, and the concrete
redelivery is dropped. -/
theorem mark_before_route_persists_on_failure_witness :
    (handleDiscordMessage ("chan-2") 10 (Dedup.mk 60000 1000 [])
        (Message.mk false ("chan-2") ("run tests") ("77")) false).2
      = [MsgAction.checkDup ("discord_" ++ "77"), MsgAction.mark ("discord_" ++ "77"),
         MsgAction.routeText ("run tests")] ++ cond false [] [MsgAction.logRouteFailure] ∧
    occursBefore (handleDiscordMessage ("chan-2") 10 (Dedup.mk 60000 1000 [])
        (Message.mk false ("chan-2") ("run tests") ("77")) false).2
      (MsgAction.mark ("discord_" ++ "77")) (MsgAction.routeText ("run tests")) ∧
    (handleDiscordMessage ("chan-2") 10 (Dedup.mk 60000 1000 [])
        (Message.mk false ("chan-2") ("run tests") ("77")) false).1
      = (handleDiscordMessage ("chan-2") 10 (Dedup.mk 60000 1000 [])
          (Message.mk false ("chan-2") ("run tests") ("77")) true).1 ∧
    isProcessed (handleDiscordMessage ("chan-2") 10 (Dedup.mk 60000 1000 [])
        (Message.mk false ("chan-2") ("run tests") ("77")) false).1
      ("discord_" ++ "77") = true ∧
    countRoutes (handleDiscordMessage ("chan-2") 20
        (handleDiscordMessage ("chan-2") 10 (Dedup.mk 60000 1000 [])
          (Message.mk false ("chan-2") ("run tests") ("77")) false).1
        (Message.mk false ("chan-2") ("run tests") ("77")) true).2 = 0 :=
  mark_before_route_persists_on_failure ("chan-2") 10 20 (Dedup.mk 60000 1000 [])
    (Message.mk false ("chan-2") ("run tests") ("77")) false true
    rfl rfl (by decide) rfl

/-- Claim C6: on a tick whose sampling process closes with non-empty output,
the accumulated text is fed into the session buffer and only then into the
classifier (the buffer update occurs before classification starts), and the
state-change handler is invoked exactly once when the classification result
is non-null and never when it is null (or when classification fails). -/
theorem close_feeds_buffer_then_classifier_invokes_once
    (connected : Bool) (buf : String)
    (outcome : Except String (Option ClassificationResult)) (next : Nat)
    (hbuf : buf ≠ "") :
    TickAction.bufferUpdate buf ∈ onCloseActions connected buf outcome next ∧
    TickAction.detectStart buf ∈ onCloseActions connected buf outcome next ∧
    occursBefore (onCloseActions connected buf outcome next)
      (TickAction.bufferUpdate buf) (TickAction.detectStart buf) ∧
    countInvokes (onCloseActions connected buf outcome next) =
      (match outcome with
       | Except.ok (some _) => 1
       | _ => 0) := by
  refine ⟨?_, ?_, ?_, ?_⟩
  · simp [onCloseActions, hbuf]
  · simp [onCloseActions, hbuf]
  · unfold occursBefore onCloseActions
    rcases outcome with e | (_ | r) <;> cases connected <;>
      (intro i j hi hj
       rcases i with ⟨iv, hiv⟩
       rcases j with ⟨jv, hjv⟩
       simp [hbuf] at hiv hjv
       interval_cases iv <;> interval_cases jv <;> simp_all [List.get])
  · rcases outcome with e | (_ | r) <;>
      simp [onCloseActions, hbuf, countInvokes, TickAction.isInvoke]

/-- Claim C6 (witness): a concrete tick with non-empty output, a connected
channel and a non-null `completed` classification updates the buffer before
classifying and invokes the state-change handler exactly once. -/
theorem close_feeds_buffer_then_classifier_invokes_once_witness :
    (("tmux output" : String) ≠ "") ∧
    (TickAction.bufferUpdate ("tmux output") ∈ onCloseActions true ("tmux output")
        (Except.ok (some (ClassificationResult.mk StateType.completed ("") 0))) 5000 ∧
     TickAction.detectStart ("tmux output") ∈ onCloseActions true ("tmux output")
        (Except.ok (some (ClassificationResult.mk StateType.completed ("") 0))) 5000 ∧
     occursBefore (onCloseActions true ("tmux output")
        (Except.ok (some (ClassificationResult.mk StateType.completed ("") 0))) 5000)
       (TickAction.bufferUpdate ("tmux output")) (TickAction.detectStart ("tmux output")) ∧
     countInvokes (onCloseActions true ("tmux output")
        (Except.ok (some (ClassificationResult.mk StateType.completed ("") 0))) 5000) = 1) :=
  ⟨by decide,
   close_feeds_buffer_then_classifier_invokes_once true ("tmux output")
     (Except.ok (some (ClassificationResult.mk StateType.completed ("") 0))) 5000 (by decide)⟩

/-- In every reachable state with the connected flag down, no poll timer is
pending and no sampling process is open: within this file nothing ever resets
`isDiscordConnected` to false, so the flag is down only before `ClientReady`,
when monitoring has not started. -/
theorem reachable_disconnected_idle (cfg : Nat) (hs : Bool) (s : Sys)
    (hr : Reachable cfg hs s) :
    s.connected = false → s.pending = [] ∧ s.procs = [] := by
  induction hr with
  | refl => exact fun _ => ⟨rfl, rfl⟩
  | tail hab hbc ih =>
    intro hc
    cases hbc with
    | clientReady h =>
      exact absurd hc (by simp)
    | tickSkip l r d hp hcb =>
      rcases ih hc with ⟨hpend, hprocs⟩
      rw [hpend] at hp
      rcases List.append_eq_nil.mp hp.symm with ⟨-, h2⟩
      exact absurd h2 (List.cons_ne_nil d r)
    | tickSpawn l r d hp hcb =>
      have hcx : (true : Bool) = false := by
        rw [← hcb]
        exact hc
      exact absurd hcx (by simp)
    | procError l r d h =>
      rcases ih hc with ⟨hpend, hprocs⟩
      rw [hprocs] at h
      rcases List.append_eq_nil.mp h.symm with ⟨-, h2⟩
      exact absurd h2 (List.cons_ne_nil ProcPhase.running r)
    | procClose l r ph d h =>
      rcases ih hc with ⟨hpend, hprocs⟩
      rw [hprocs] at h
      rcases List.append_eq_nil.mp h.symm with ⟨-, h2⟩
      exact absurd h2 (List.cons_ne_nil ph r)

/-- Claim C3: in any reachable state in which the channel-connected flag is
false, no poll timer is pending and no sampling process is open (the loop
schedules no ticks at all while disconnected), and the only event that can
occur is the ready/reconnect event, which raises the flag and — when a
session exists — schedules a tick with exactly the configured
`pollIntervalMs` delay. -/
theorem disconnected_monitor_paused_and_resume (cfg : Nat) (hs : Bool) (s : Sys)
    (hr : Reachable cfg hs s) (hc : s.connected = false) :
    s.pending = [] ∧ s.procs = [] ∧
    ∀ t : Sys, Step cfg hs s t →
      t.connected = true ∧ t.pending = cond hs [cfg] [] ∧ t.procs = [] := by
  rcases reachable_disconnected_idle cfg hs s hr hc with ⟨hp, hq⟩
  refine ⟨hp, hq, ?_⟩
  intro t hst
  cases hst with
  | clientReady h =>
    refine ⟨rfl, ?_, hq⟩
    simp [hp]
  | tickSkip l r d hp2 hc2 =>
    rw [hp] at hp2
    rcases List.append_eq_nil.mp hp2.symm with ⟨-, h2⟩
    exact absurd h2 (List.cons_ne_nil d r)
  | tickSpawn l r d hp2 hc2 =>
    rw [hc] at hc2
    exact absurd hc2 (by simp)
  | procError l r d h2 =>
    rw [hq] at h2
    rcases List.append_eq_nil.mp h2.symm with ⟨-, h3⟩
    exact absurd h3 (List.cons_ne_nil ProcPhase.running r)
  | procClose l r ph d h2 =>
    rw [hq] at h2
    rcases List.append_eq_nil.mp h2.symm with ⟨-, h3⟩
    exact absurd h3 (List.cons_ne_nil ph r)

/-- Claim C3 (witness): at the concrete initial (disconnected) state with
`pollIntervalMs = 250` and a session available, nothing is pending and the
only possible event raises the flag and schedules one tick of delay 250. -/
theorem disconnected_monitor_paused_and_resume_witness :
    initSys.pending = [] ∧ initSys.procs = [] ∧
    ∀ t : Sys, Step 250 true initSys t →
      t.connected = true ∧ t.pending = cond true [250] [] ∧ t.procs = [] :=
  disconnected_monitor_paused_and_resume 250 true initSys Relation.ReflTransGen.refl rfl

/-- Claim C2 (code bug): a state with two sampling processes simultaneously
in flight for the current session is reachable.  After a tick whose
`capture-pane` spawn fails, the `error` handler schedules a next tick and the
subsequent `close` event (emitted by Node even after a spawn failure)
schedules another, so two polling chains run and both spawn a process. -/
theorem two_sampling_processes_reachable :
    Reachable 100 true (Sys.mk true true [] [ProcPhase.running, ProcPhase.running]) := by
  refine Relation.ReflTransGen.head (Step.clientReady initSys rfl) ?_
  refine Relation.ReflTransGen.head (Step.tickSpawn _ [] [] 100 rfl rfl) ?_
  refine Relation.ReflTransGen.head (Step.procError _ [] [] 50 rfl) ?_
  refine Relation.ReflTransGen.head (Step.procClose _ [] [] ProcPhase.erroredOpen 60 rfl) ?_
  refine Relation.ReflTransGen.head (Step.tickSpawn _ [] [60] 50 rfl rfl) ?_
  refine Relation.ReflTransGen.head (Step.tickSpawn _ [] [] 60 rfl rfl) ?_
  exact Relation.ReflTransGen.refl

/-- Claim C5 (code bug): a tick whose sampling process fails to spawn
schedules two next ticks, not exactly one — the `error` handler schedules one
(delay 30 here) and the process's `close` handler, which still fires,
schedules a second (delay 40 here) because the channel is connected. -/
theorem spawn_error_schedules_two_ticks :
    Step 100 true (Sys.mk true true [] [ProcPhase.running])
      (Sys.mk true true [30] [ProcPhase.erroredOpen]) ∧
    Step 100 true (Sys.mk true true [30] [ProcPhase.erroredOpen])
      (Sys.mk true true [30, 40] []) :=
  ⟨Step.procError _ [] [] 30 rfl, Step.procClose _ [] [] ProcPhase.erroredOpen 40 rfl⟩
